import Mathlib

set_option maxRecDepth 100000

/-!
Shallow embedding of `src/ig_scraper.py` (the only source file of the
repository `tracker-panel`): a CLI wrapper that looks up a social-media
profile by username through the `instaloader` library, optionally iterates
up to 12 posts, and prints exactly one JSON object to stdout.

Modelling choices:
* `Env` captures the behaviour of the external library during one run:
  `lookup` is the outcome of `Profile.from_username` as a function of the
  username actually passed to it; `postEvents` is the stream produced by
  `profile.get_posts()` together with the per-post attribute accesses in
  the loop body (an event is either a post whose processing succeeds, or
  an exception raised at that point of the iteration); `alarmAtImport`
  models the SIGALRM watchdog (lines 8-15) firing at a program point
  outside the `try` block, e.g. during `import instaloader` (line 24) —
  there the resulting `TimeoutError` is uncaught, so the process dies with
  a traceback on stderr, a non-zero exit status and nothing on stdout.
  A `TimeoutError` raised inside the `try` block is just another
  exception and is covered by the `LookupOutcome`/`PostEvent` cases.
* Python integers become `Nat`, Python strings become `String`,
  `None`-able values become `Option`.
* `pyOrStr`/`pyOrNat` translate Python's truthiness-based `x or d`
  (`None` and the empty string / zero are falsy).
* `str.lstrip('@')` removes every leading `'@'` character: `lstripAt`.
* `"429" in err_str` is substring containment: `strContains`.
* `stdout` of a run is the list of complete top-level JSON objects
  printed; `exitCode` is the process exit status (`sys.exit(1)` or the
  implicit 0, and 1 for an uncaught exception).
-/

namespace IgScraper

/-- Fields of an `instaloader` `Profile` object read by the script
(lines 47-56): `username`, `full_name`, `biography`, `followers`,
`followees`, `mediacount`, `is_private`, `is_verified`,
`profile_pic_url`, `external_url`. -/
structure Profile where
  username : String
  full_name : String
  biography : String
  followers : Nat
  followees : Nat
  mediacount : Nat
  is_private : Bool
  is_verified : Bool
  profile_pic_url : String
  external_url : Option String
deriving DecidableEq

/-- Fields of an `instaloader` `Post` object read by the loop body
(lines 67-77).  `date_utc` is modelled directly as its ISO-8601 rendering
(the script only ever calls `isoformat()` on it). -/
structure Post where
  shortcode : String
  caption : Option String
  url : String
  likes : Nat
  comments : Nat
  video_view_count : Option Nat
  is_video : Bool
  date_utc : Option String
deriving DecidableEq

/-- The per-post dictionary `post_data` built at lines 67-77. -/
structure PostData where
  id : String
  url : String
  title : String
  thumbnail : String
  likes : Nat
  comments : Nat
  views : Nat
  is_video : Bool
  upload_date : Option String
deriving DecidableEq

/-- The `result` dictionary built at lines 46-58, with its final
`posts` list. -/
structure ResultRecord where
  username : String
  full_name : String
  biography : String
  followers : Nat
  following : Nat
  posts_count : Nat
  is_private : Bool
  is_verified : Bool
  profile_pic_url : String
  external_url : Option String
  posts : List PostData
deriving DecidableEq

/-- A complete top-level JSON object printed to stdout: either the
success `result` object or an error object `{"error": ..}` with an
optional `"message"` field (only the rate-limited object has one). -/
inductive JsonOut where
  | result (r : ResultRecord)
  | errorObj (error : String) (message : Option String)
deriving DecidableEq

/-- Outcome of the `Profile.from_username` call (line 44) as the
exception handlers at lines 85-97 distinguish them:
success, `ProfileNotExistsException`, `ConnectionException` (with its
message), or any other exception (with its message). -/
inductive LookupOutcome where
  | success (p : Profile)
  | profileNotExists
  | connectionError (msg : String)
  | otherError (msg : String)

/-- One step of the post iteration (lines 63-79): either the iterator
yields a post and the loop body processes it without an exception, or an
exception is raised at that point (by `get_posts()`, by the iterator's
next fetch, or by an attribute access in the body — in every case before
the corresponding `append`). -/
inductive PostEvent where
  | post (p : Post)
  | raise
deriving DecidableEq

/-- Behaviour of the outside world during one run of the script. -/
structure Env where
  lookup : String → LookupOutcome
  postEvents : List PostEvent
  alarmAtImport : Bool

/-- Observable outcome of one run: the complete top-level JSON objects
printed to stdout, and the process exit status. -/
structure RunResult where
  stdout : List JsonOut
  exitCode : Nat
deriving DecidableEq

/-- Python `x or d` for an optional string: `None` and `""` are falsy. -/
def pyOrStr (x : Option String) (d : String) : String :=
  match x with
  | none => d
  | some s => if s = ("" : String) then d else s

/-- Python `x or d` for an optional integer: `None` and `0` are falsy. -/
def pyOrNat (x : Option Nat) (d : Nat) : Nat :=
  match x with
  | none => d
  | some v => if v = 0 then d else v

/-- `leadsWith pat l` is true iff `pat` is an initial segment of `l`. -/
def leadsWith : List Char → List Char → Bool
  | [], _ => true
  | _ :: _, [] => false
  | a :: as, b :: bs => a == b && leadsWith as bs

/-- `occursIn pat l` is true iff `pat` occurs contiguously in `l`. -/
def occursIn (pat : List Char) : List Char → Bool
  | [] => leadsWith pat []
  | c :: rest => leadsWith pat (c :: rest) || occursIn pat rest

/-- Python `pat in s` for strings: substring containment (line 90). -/
def strContains (s pat : String) : Bool :=
  occursIn pat.data s.data

/-- Python string slicing `s[:n]` (line 70): the first `n` characters. -/
def strTake (s : String) (n : Nat) : String :=
  String.mk (List.take n s.data)

/-- Python `s.lstrip('@')` (line 22): remove every leading `'@'`. -/
def lstripAt (s : String) : String :=
  String.mk (List.dropWhile (fun c => c == '@') s.data)

/-- The `post_data` dictionary for one post (lines 67-77). -/
def mkPostData (post : Post) : PostData :=
  { id := post.shortcode
    url := ("https://www.instagram.com/p/" : String) ++ post.shortcode ++ ("/" : String)
    title := strTake (pyOrStr post.caption ("Post" : String)) 100
    thumbnail := post.url
    likes := post.likes
    comments := post.comments
    views := pyOrNat post.video_view_count 0
    is_video := post.is_video
    upload_date := post.date_utc }

/-- The `result` dictionary (lines 46-58) with a given final `posts`
list. -/
def mkResult (profile : Profile) (posts : List PostData) : ResultRecord :=
  { username := profile.username
    full_name := profile.full_name
    biography := profile.biography
    followers := profile.followers
    following := profile.followees
    posts_count := profile.mediacount
    is_private := profile.is_private
    is_verified := profile.is_verified
    profile_pic_url := profile.profile_pic_url
    external_url := profile.external_url
    posts := posts }

/-- The `for post in profile.get_posts()` loop (lines 62-81) with its
surrounding `try/except Exception: pass`: walk the event stream, break
once `count >= 12` when a further post is yielded, stop and KEEP the
accumulated list when an exception is raised (the `except` swallows it
after the earlier `append`s have already happened). -/
def runPosts : List PostEvent → Nat → List PostData → List PostData
  | [], _, acc => acc
  | PostEvent.raise :: _, _, acc => acc
  | PostEvent.post p :: rest, count, acc =>
    if count ≥ 12 then acc
    else runPosts rest (count + 1) (acc ++ [mkPostData p])

/-- The whole of `main()` (lines 17-97) plus the module-level watchdog:
argument check, `lstrip('@')`, the (possible) uncaught timeout outside
the `try`, the lookup, the post loop for public profiles, and the
exception-to-error-object mapping. -/
def main_run (argv : List String) (env : Env) : RunResult :=
  if argv.length < 2 then
    { stdout := [JsonOut.errorObj ("Usage: ig_scraper.py <username>" : String) none]
      exitCode := 1 }
  else
    let username := lstripAt (argv.getD 1 ("" : String))
    if env.alarmAtImport then
      { stdout := [], exitCode := 1 }
    else
      match env.lookup username with
      | LookupOutcome.success profile =>
        let posts :=
          if profile.is_private then ([] : List PostData)
          else runPosts env.postEvents 0 []
        { stdout := [JsonOut.result (mkResult profile posts)], exitCode := 0 }
      | LookupOutcome.profileNotExists =>
        { stdout := [JsonOut.errorObj (("Profile '" : String) ++ username ++ ("' does not exist" : String)) none]
          exitCode := 1 }
      | LookupOutcome.connectionError e =>
        if strContains e ("429" : String) then
          { stdout := [JsonOut.errorObj ("rate_limited" : String) (some ("Instagram rate limit (429). Try again later." : String))]
            exitCode := 1 }
        else
          { stdout := [JsonOut.errorObj (("Connection error: " : String) ++ e) none]
            exitCode := 1 }
      | LookupOutcome.otherError e =>
        { stdout := [JsonOut.errorObj e none], exitCode := 1 }

/-- A sample public profile used for concrete runs. -/
def pubProfile : Profile :=
  { username := ("alice" : String)
    full_name := ("Alice" : String)
    biography := ("" : String)
    followers := 10
    followees := 5
    mediacount := 2
    is_private := false
    is_verified := false
    profile_pic_url := ("pic" : String)
    external_url := none }

/-- The same profile with the private flag set. -/
def privProfile : Profile :=
  { pubProfile with is_private := true }

/-- A sample post with a non-empty caption. -/
def samplePost : Post :=
  { shortcode := ("abc" : String)
    caption := some ("hello" : String)
    url := ("thumb" : String)
    likes := 3
    comments := 1
    video_view_count := none
    is_video := false
    date_utc := none }

/-! Helper lemmas. -/

/-- Stripping leading `'@'`s swallows one explicit leading `'@'`. -/
theorem lstripAt_at_cons (s : String) : lstripAt (("@" : String) ++ s) = lstripAt s := by
  cases s with
  | mk data => rfl

/-- The post loop produces at most `12 - count` additional entries. -/
theorem runPosts_length (events : List PostEvent) :
    ∀ (count : Nat) (acc : List PostData),
      (runPosts events count acc).length ≤ acc.length + (12 - count) := by
  induction events with
  | nil =>
    intro count acc
    simp [runPosts]
  | cons ev rest ih =>
    intro count acc
    cases ev with
    | raise => simp [runPosts]
    | post p =>
      rw [runPosts]
      by_cases hc : count ≥ 12
      · simp [hc]
      · simp only [hc, if_false]
        have h := ih (count + 1) (acc ++ [mkPostData p])
        have hlen : (acc ++ [mkPostData p]).length = acc.length + 1 :=
          List.length_append acc [mkPostData p]
        omega

/-- If the stream yields the posts `ps` and then raises, the loop keeps
the (≤ 12) entries already appended. -/
theorem runPosts_posts_then_raise (ps : List Post) (rest : List PostEvent) :
    ∀ (count : Nat) (acc : List PostData),
      runPosts (ps.map PostEvent.post ++ PostEvent.raise :: rest) count acc
        = acc ++ (ps.take (12 - count)).map mkPostData := by
  induction ps with
  | nil =>
    intro count acc
    simp [runPosts]
  | cons p ps ih =>
    intro count acc
    rw [List.map_cons, List.cons_append, runPosts]
    by_cases hc : count ≥ 12
    · have h0 : 12 - count = 0 := by omega
      simp [hc, h0]
    · have h1 : 12 - count = (12 - (count + 1)) + 1 := by omega
      rw [if_neg hc, ih (count + 1) (acc ++ [mkPostData p]), h1,
        List.take_succ_cons, List.map_cons]
      simp

/-! Theorems for the claims. -/

/-- C6: invoked with no positional argument (argv holds only the program
name), the script prints the usage error object and exits with status 1;
the outcome is a constant independent of the environment, so no lookup is
performed. -/
theorem c6_usage_error (prog : String) (env : Env) :
    main_run [prog] env =
      { stdout := [JsonOut.errorObj ("Usage: ig_scraper.py <username>" : String) none]
        exitCode := 1 } := rfl

/-- C8: a leading `"@"` is stripped before the lookup, so `"@name"` and
`"name"` produce identical runs in every environment. -/
theorem c8_at_prefix_stripped (prog s : String) (env : Env) :
    main_run [prog, ("@" : String) ++ s] env = main_run [prog, s] env := by
  rw [main_run, main_run]
  have h : lstripAt ([prog, ("@" : String) ++ s].getD 1 ("" : String))
      = lstripAt ([prog, s].getD 1 ("" : String)) := by
    simpa [List.getD] using lstripAt_at_cons s
  simp only [List.length_cons, List.length_nil]
  rw [h]

/-- C10: the username handed to the profile lookup is the argument with
EVERY leading `'@'` removed (observed through an environment whose lookup
echoes its argument back as an error message); in particular `"@@name"`
is looked up as `"name"`, while `'@'` characters after the first
non-`'@'` character are kept (`"@a@b"` becomes `"a@b"`). -/
theorem c10_lstrip_removes_all_leading_ats (prog arg : String) :
    (main_run [prog, arg]
        { lookup := fun u => LookupOutcome.otherError u
          postEvents := []
          alarmAtImport := false }).stdout
      = [JsonOut.errorObj (String.mk (List.dropWhile (fun c => c == '@') arg.data)) none] ∧
    lstripAt ("@@name" : String) = ("name" : String) ∧
    lstripAt ("@a@b" : String) = ("a@b" : String) := by
  refine ⟨?_, by decide, by decide⟩
  rw [main_run]
  simp [List.getD, lstripAt]

/-! Concrete environments for counterexamples and witnesses. -/

/-- A post whose caption is present but empty. -/
def emptyCapPost : Post :=
  { samplePost with caption := some ("" : String) }

/-- Successful lookup of the public profile; the post iteration yields
one post and then raises. -/
def c1Env : Env :=
  { lookup := fun _ => LookupOutcome.success pubProfile
    postEvents := [PostEvent.post samplePost, PostEvent.raise]
    alarmAtImport := false }

/-- The watchdog alarm fires outside the guarded region. -/
def c2AlarmEnv : Env :=
  { lookup := fun _ => LookupOutcome.profileNotExists
    postEvents := []
    alarmAtImport := true }

/-- A failing lookup with no alarm. -/
def c2OkEnv : Env :=
  { lookup := fun _ => LookupOutcome.profileNotExists
    postEvents := []
    alarmAtImport := false }

/-- Successful lookup of the private profile. -/
def c3Env : Env :=
  { lookup := fun _ => LookupOutcome.success privProfile
    postEvents := [PostEvent.post samplePost]
    alarmAtImport := false }

/-- A connection error whose message contains the substring `"429"`. -/
def c4Env429 : Env :=
  { lookup := fun _ => LookupOutcome.connectionError ("HTTP error code 429 hit" : String)
    postEvents := []
    alarmAtImport := false }

/-- A connection error whose message does not mention `"429"`. -/
def c4EnvPlain : Env :=
  { lookup := fun _ => LookupOutcome.connectionError ("connection refused" : String)
    postEvents := []
    alarmAtImport := false }

/-- An arbitrary non-connection, non-not-found exception. -/
def c5Env : Env :=
  { lookup := fun _ => LookupOutcome.otherError ("boom" : String)
    postEvents := []
    alarmAtImport := false }

/-- Private profile, with an iterator that would yield posts. -/
def c7Env : Env :=
  { lookup := fun _ => LookupOutcome.success privProfile
    postEvents := [PostEvent.post samplePost, PostEvent.post samplePost]
    alarmAtImport := false }

/-- Public profile whose single post has a present-but-empty caption. -/
def c9Env : Env :=
  { lookup := fun _ => LookupOutcome.success pubProfile
    postEvents := [PostEvent.post emptyCapPost]
    alarmAtImport := false }

/-- C1 (counterexample): the lookup succeeds, the iteration raises after
one post was appended, and the printed result object's posts array has
length 1, not 0 — the posts appended before the exception are kept. -/
theorem c1_counterexample :
    (main_run [("ig_scraper.py" : String), ("alice" : String)] c1Env).stdout
      = [JsonOut.result (mkResult pubProfile [mkPostData samplePost])] ∧
    (mkResult pubProfile [mkPostData samplePost]).posts.length = 1 :=
  ⟨by decide, by decide⟩

/-- C1 (amended): when the profile lookup succeeds, the profile is
public, and the post iteration raises an exception after yielding the
posts `ps`, the printed result object's posts array holds exactly the
per-post records of the posts already processed (the first ≤ 12 of
`ps`), and so is empty only when the exception precedes the first
append. -/
theorem c1_posts_kept_on_raise (prog u : String) (env : Env) (profile : Profile)
    (ps : List Post) (rest : List PostEvent)
    (halarm : env.alarmAtImport = false)
    (hlk : env.lookup (lstripAt u) = LookupOutcome.success profile)
    (hpub : profile.is_private = false)
    (hev : env.postEvents = ps.map PostEvent.post ++ PostEvent.raise :: rest) :
    main_run [prog, u] env =
      { stdout := [JsonOut.result (mkResult profile ((ps.take 12).map mkPostData))]
        exitCode := 0 } := by
  have h := runPosts_posts_then_raise ps rest 0 []
  simp [main_run, halarm, hlk, hpub, hev, List.getD_cons_succ, List.getD_cons_zero, h]

/-- C1 (witness): instantiation of `c1_posts_kept_on_raise` at the
concrete run of `c1_counterexample`. -/
theorem c1_posts_kept_on_raise_witness :
    main_run [("ig_scraper.py" : String), ("alice" : String)] c1Env =
      { stdout := [JsonOut.result (mkResult pubProfile (([samplePost].take 12).map mkPostData))]
        exitCode := 0 } :=
  c1_posts_kept_on_raise ("ig_scraper.py" : String) ("alice" : String) c1Env pubProfile
    [samplePost] [] rfl rfl rfl rfl

/-- C2 (counterexample): if the watchdog alarm fires outside the guarded
region (e.g. during the library import), the `TimeoutError` is uncaught:
the run exits non-zero with NO top-level JSON object on stdout, so it is
not the case that every run prints exactly one object. -/
theorem c2_counterexample :
    (main_run [("ig_scraper.py" : String), ("alice" : String)] c2AlarmEnv).stdout.length = 0 ∧
    (main_run [("ig_scraper.py" : String), ("alice" : String)] c2AlarmEnv).exitCode = 1 :=
  ⟨rfl, rfl⟩

/-- C2 (amended): every run in which the watchdog alarm does not fire
outside the guarded region prints exactly one top-level JSON object,
on success paths and on every handled failure path alike. -/
theorem c2_one_json_object_unless_alarm (argv : List String) (env : Env)
    (halarm : env.alarmAtImport = false) :
    (main_run argv env).stdout.length = 1 := by
  simp only [main_run, halarm, Bool.false_eq_true, if_false]
  split
  · rfl
  · split
    · rfl
    · rfl
    · split
      · rfl
      · rfl
    · rfl

/-- C2 (witness): instantiation of `c2_one_json_object_unless_alarm` at
a concrete failing run without the alarm. -/
theorem c2_one_json_object_unless_alarm_witness :
    (main_run [("ig_scraper.py" : String), ("alice" : String)] c2OkEnv).stdout.length = 1 :=
  c2_one_json_object_unless_alarm [("ig_scraper.py" : String), ("alice" : String)] c2OkEnv rfl

/-- C3: whatever the arguments and the environment (in particular no
matter how many posts the iterator yields), any result object printed to
stdout has a posts array of length at most 12. -/
theorem c3_posts_at_most_12 (argv : List String) (env : Env) (r : ResultRecord)
    (h : JsonOut.result r ∈ (main_run argv env).stdout) :
    r.posts.length ≤ 12 := by
  simp only [main_run] at h
  split at h
  · simp at h
  · split at h
    · simp at h
    · split at h
      · rename_i profile heq
        simp only [List.mem_singleton, JsonOut.result.injEq] at h
        subst h
        show (if profile.is_private then ([] : List PostData)
          else runPosts env.postEvents 0 []).length ≤ 12
        split
        · simp
        · have hlen := runPosts_length env.postEvents 0 []
          simpa using hlen
      · simp at h
      · split at h <;> simp at h
      · simp at h

/-- C3 (witness): instantiation of `c3_posts_at_most_12` at a concrete
run printing a result object. -/
theorem c3_posts_at_most_12_witness :
    (mkResult privProfile []).posts.length ≤ 12 :=
  c3_posts_at_most_12 [("ig_scraper.py" : String), ("alice" : String)] c3Env
    (mkResult privProfile []) (by decide)

/-- C4: on a connection error, if the message contains the substring
`"429"` the script prints the rate-limited error object (error code
`rate_limited` with a secondary message field) and exits with status 1;
otherwise it prints a connection-error object carrying the message
verbatim, again exiting with status 1. -/
theorem c4_connection_error_429 (prog u msg : String) (env : Env)
    (halarm : env.alarmAtImport = false)
    (hlk : env.lookup (lstripAt u) = LookupOutcome.connectionError msg) :
    main_run [prog, u] env =
      if strContains msg ("429" : String) then
        { stdout := [JsonOut.errorObj ("rate_limited" : String)
            (some ("Instagram rate limit (429). Try again later." : String))]
          exitCode := 1 }
      else
        { stdout := [JsonOut.errorObj (("Connection error: " : String) ++ msg) none]
          exitCode := 1 } := by
  simp [main_run, halarm, hlk, List.getD_cons_succ, List.getD_cons_zero]

/-- C4 (witness): instantiations of `c4_connection_error_429` at a
message containing `"429"` and at one that does not. -/
theorem c4_connection_error_429_witness :
    main_run [("ig_scraper.py" : String), ("alice" : String)] c4Env429 =
      { stdout := [JsonOut.errorObj ("rate_limited" : String)
          (some ("Instagram rate limit (429). Try again later." : String))]
        exitCode := 1 } ∧
    main_run [("ig_scraper.py" : String), ("alice" : String)] c4EnvPlain =
      { stdout := [JsonOut.errorObj (("Connection error: " : String) ++ ("connection refused" : String)) none]
        exitCode := 1 } := by
  constructor
  · rw [c4_connection_error_429 ("ig_scraper.py" : String) ("alice" : String)
      ("HTTP error code 429 hit" : String) c4Env429 rfl rfl]
    decide
  · rw [c4_connection_error_429 ("ig_scraper.py" : String) ("alice" : String)
      ("connection refused" : String) c4EnvPlain rfl rfl]
    decide

/-- C5: an exception during profile lookup that is neither
profile-not-found nor a connection error is surfaced as an error object
whose error field is exactly the exception's message, with exit
status 1. -/
theorem c5_other_exception_message (prog u msg : String) (env : Env)
    (halarm : env.alarmAtImport = false)
    (hlk : env.lookup (lstripAt u) = LookupOutcome.otherError msg) :
    main_run [prog, u] env =
      { stdout := [JsonOut.errorObj msg none], exitCode := 1 } := by
  simp [main_run, halarm, hlk, List.getD_cons_succ, List.getD_cons_zero]

/-- C5 (witness): instantiation of `c5_other_exception_message` at a
concrete exception message. -/
theorem c5_other_exception_message_witness :
    main_run [("ig_scraper.py" : String), ("alice" : String)] c5Env =
      { stdout := [JsonOut.errorObj ("boom" : String) none], exitCode := 1 } :=
  c5_other_exception_message ("ig_scraper.py" : String) ("alice" : String) ("boom" : String)
    c5Env rfl rfl

/-- C7: a successfully looked-up private profile yields the result
object with an empty posts array and exit status 0, whatever the post
iterator would have produced. -/
theorem c7_private_profile_empty_posts (prog u : String) (env : Env) (profile : Profile)
    (halarm : env.alarmAtImport = false)
    (hlk : env.lookup (lstripAt u) = LookupOutcome.success profile)
    (hpriv : profile.is_private = true) :
    main_run [prog, u] env =
      { stdout := [JsonOut.result (mkResult profile [])], exitCode := 0 } := by
  simp [main_run, halarm, hlk, hpriv, List.getD_cons_succ, List.getD_cons_zero]

/-- C7 (witness): instantiation of `c7_private_profile_empty_posts` at
the private profile with an iterator that would yield two posts. -/
theorem c7_private_profile_empty_posts_witness :
    main_run [("ig_scraper.py" : String), ("alice" : String)] c7Env =
      { stdout := [JsonOut.result (mkResult privProfile [])], exitCode := 0 } :=
  c7_private_profile_empty_posts ("ig_scraper.py" : String) ("alice" : String) c7Env
    privProfile rfl rfl rfl

/-- C9 (counterexample): a post with a PRESENT but empty caption is
included in the printed output with title `"Post"`, not with the
100-character truncation of its caption (which would be `""`): Python's
`or` treats the empty string like an absent caption. -/
theorem c9_counterexample :
    (main_run [("ig_scraper.py" : String), ("alice" : String)] c9Env).stdout
      = [JsonOut.result (mkResult pubProfile [mkPostData emptyCapPost])] ∧
    emptyCapPost.caption = some ("" : String) ∧
    (mkPostData emptyCapPost).title = ("Post" : String) ∧
    ¬ (mkPostData emptyCapPost).title = strTake ("" : String) 100 :=
  ⟨by decide, by decide, by decide, by decide⟩

/-- C9 (amended): the title of an output post record is the caption
truncated to its first 100 characters when the caption is present and
non-empty, and the placeholder `"Post"` when the caption is absent OR
empty. -/
theorem c9_title_truncation (p : Post) (c : String) :
    (p.caption = none → (mkPostData p).title = ("Post" : String)) ∧
    (p.caption = some ("" : String) → (mkPostData p).title = ("Post" : String)) ∧
    (p.caption = some c → ¬ c = ("" : String) →
      (mkPostData p).title = strTake c 100) := by
  have hdef : (mkPostData p).title = strTake (pyOrStr p.caption ("Post" : String)) 100 := rfl
  refine ⟨fun h => ?_, fun h => ?_, fun h hne => ?_⟩
  · rw [hdef, h]
    decide
  · rw [hdef, h]
    decide
  · rw [hdef, h]
    simp only [pyOrStr]
    rw [if_neg hne]

/-- C9 (witness): instantiation of `c9_title_truncation` at a post with
the concrete non-empty caption `"hello"`. -/
theorem c9_title_truncation_witness :
    (mkPostData samplePost).title = strTake ("hello" : String) 100 :=
  (c9_title_truncation samplePost ("hello" : String)).2.2 rfl (by decide)

end IgScraper
